import Mathlib

/-!
Verification of the route-report core of the today-app repository.

The embedding covers:
* the report aggregator of `src/web/src/pages/VisitForm.tsx` (report store
  section): `calculateTimeSpent`, `calculateSummary`, `calculateTrends`,
  `calculateFlaggedIssues`, and `generateReport`;
* the rule-based insight engine `generateAIInsights` of
  `src/web/src/services/reportService.ts`;
* the nearest-neighbor fallback optimizer of
  `src/web/src/services/routeService.ts`: `basicOptimization`,
  `calculateTotalDistance`, `haversineDistance`, `estimateDuration`.

JavaScript numbers are modeled as rationals (for the aggregator, whose
arithmetic is exact on the inputs of interest) and as reals (for the
optimizer, whose distances use transcendental functions).  Timestamps are
milliseconds since the epoch, as returned by `Date.getTime()`.
-/

/-! ## JavaScript value model -/

/-- The value of a `QuestionResponse`: `string | boolean | number | null`. -/
inductive JsValue where
  | null : JsValue
  | bool (b : Bool) : JsValue
  | num (q : ℚ) : JsValue
  | str (s : String) : JsValue
deriving DecidableEq

/-- JavaScript `Number(v)` coercion; `none` models `NaN`.
`Number(null) = 0`, `Number(true) = 1`, `Number(false) = 0`, `Number("") = 0`.
Parsing of non-empty numeric strings is not modeled (no claim exercises a
string-valued rating); a non-empty string coerces to `NaN` here. -/
def jsToNumber : JsValue → Option ℚ
  | JsValue.null => some 0
  | JsValue.bool b => some (if b then 1 else 0)
  | JsValue.num q => some q
  | JsValue.str s => if s = "" then some 0 else none

/-- JavaScript `Number(v) <= c` (false when `Number(v)` is `NaN`). -/
def jsNumLE (v : JsValue) (c : ℚ) : Bool :=
  match jsToNumber v with
  | some q => q ≤ c
  | none => false

/-- JavaScript `Number(v) === c` (false when `Number(v)` is `NaN`). -/
def jsNumEq (v : JsValue) (c : ℚ) : Bool :=
  match jsToNumber v with
  | some q => q = c
  | none => false

/-- JavaScript `Number(v) || 0`: `NaN` (and `0`) collapse to `0`. -/
def jsNumOr0 (v : JsValue) : ℚ := (jsToNumber v).getD 0

/-- JavaScript truthiness of a response value. -/
def jsTruthy : JsValue → Bool
  | JsValue.null => false
  | JsValue.bool b => b
  | JsValue.num q => q ≠ 0
  | JsValue.str s => s ≠ ""

/-- Rendering of a rational JS number into a template string; exact for
integers, which is the only case the claims exercise. -/
def jsNumToString (q : ℚ) : String :=
  if q.den = 1 then toString q.num else toString q

/-- String interpolation of a response value. -/
def jsValueToString : JsValue → String
  | JsValue.null => "null"
  | JsValue.bool b => if b then "true" else "false"
  | JsValue.num q => jsNumToString q
  | JsValue.str s => s

/-- JavaScript `Math.round`: round half toward positive infinity. -/
def jsRound (q : ℚ) : ℤ := ⌊q + 1/2⌋

/-- Substring test on character lists: `needle` occurs contiguously in the
second argument. -/
def containsSub (needle : List Char) : List Char → Bool
  | [] => needle.isEmpty
  | c :: rest => needle.isPrefixOf (c :: rest) || containsSub needle rest

/-- JavaScript `s.includes(sub)`. -/
def strIncludes (s sub : String) : Bool := containsSub sub.toList s.toList

/-- JavaScript `s.toLowerCase()` (ASCII-adequate model): lower-case every
character. -/
def jsToLower (s : String) : String := ⟨s.data.map Char.toLower⟩

/-- `r.questionText.toLowerCase().includes(sub)` for an already-lowercase
`sub`, the form used throughout the source. -/
def includesLower (s sub : String) : Bool := strIncludes (jsToLower s) sub

/-! ## Data model (src/web/src/stores/questionStore.ts, types section) -/

/-- `StopStatus = 'pending' | 'in_progress' | 'completed' | 'skipped'`. -/
inductive StopStatus where
  | pending
  | inProgress
  | completed
  | skipped
deriving DecidableEq

/-- The question types of the source (`QuestionType` union). -/
inductive QuestionType where
  | text
  | multipleChoice
  | yesNo
  | photo
  | signature
  | rating
  | number
  | date
  | time
deriving DecidableEq

/-- A `Stop` record, restricted to the fields the report core reads.
`arrivedAt`/`departedAt` are epoch milliseconds. -/
structure Stop where
  id : String
  routeId : String
  address : String
  name : Option String
  order : ℤ
  status : StopStatus
  arrivedAt : Option ℚ
  departedAt : Option ℚ
deriving DecidableEq

/-- A `Route` record, restricted to the fields the report core reads.
`totalDistance` is meters, `totalDuration` seconds, timestamps epoch ms. -/
structure Route where
  id : String
  userId : String
  date : String
  totalDistance : ℚ
  totalDuration : ℚ
  startedAt : Option ℚ
  completedAt : Option ℚ
deriving DecidableEq

/-- A `QuestionResponse` record, restricted to the fields the report core
reads.  `imageData` is the optional base64 payload. -/
structure QuestionResponse where
  stopId : String
  routeId : String
  questionText : String
  type : QuestionType
  value : JsValue
  imageData : Option String
deriving DecidableEq

/-- `stop.name || stop.address` (an empty-string name is falsy). -/
def displayName (s : Stop) : String :=
  match s.name with
  | some n => if n = "" then s.address else n
  | none => s.address

/-- Severity of a flagged issue. -/
inductive Severity where
  | low
  | medium
  | high
deriving DecidableEq

/-- A `FlaggedIssue` record. -/
structure FlaggedIssue where
  severity : Severity
  description : String
  stopId : String
deriving DecidableEq

/-- Trend classification. -/
inductive TrendType where
  | positive
  | negative
  | neutral
deriving DecidableEq

/-- A `TrendItem` record (`value` is the displayed string). -/
structure TrendItem where
  label : String
  value : String
  type : TrendType
deriving DecidableEq

/-- The narrative observations produced by `generateAIInsights`.  The source
pushes template strings; the spec declares the wording non-normative, so each
push site is modeled as a tagged variant carrying the interpolated data. -/
inductive Observation where
  | allCompleted
  | strongCompletion (rate : ℚ) (remaining : ℕ)
  | lowCompletion (rate : ℚ)
  | longStops (maxTime avgTime : ℚ)
  | quickVisits
  | extendedVisits (avgTime : ℚ)
  | highIssueRate (count completed : ℕ)
  | someIssues (count : ℕ)
  | noIssues
  | followUps (count : ℕ)
  | excellentSatisfaction (avg : ℚ)
  | goodSatisfaction (avg : ℚ)
  | lowSatisfaction (avg : ℚ)
  | lowRatings (count : ℕ)
  | stopsSkipped (count : ℕ) (names : List String)
  | photos (count : ℕ)
  | signatures (count : ℕ)
  | highDistancePerStop (miles : ℚ)
  | efficientClustering
  | defaultFallback
deriving DecidableEq

/-- The `ExecutiveSummary` record. -/
structure ExecutiveSummary where
  totalStops : ℕ
  completedStops : ℕ
  skippedStops : ℕ
  totalDriveTime : ℤ
  totalOnSiteTime : ℤ
  totalTime : ℤ
  locationsPerHour : ℚ
  averageTimePerStop : ℤ
  totalDistance : ℚ
  trends : List TrendItem
  observations : List Observation
  flaggedIssues : List FlaggedIssue
deriving DecidableEq

/-- `Record<string, QuestionResponse[]>`: an association list keyed by stop
id, in key-insertion order. -/
abbrev ResponsesByStop := List (String × List QuestionResponse)

/-- `Object.values(responsesByStop).flat()`. -/
def allResponsesOf (rb : ResponsesByStop) : List QuestionResponse :=
  (rb.map Prod.snd).flatten

/-- `responsesByStop[stop.id] || []`. -/
def responsesFor (rb : ResponsesByStop) (stopId : String) : List QuestionResponse :=
  (rb.lookup stopId).getD []

/-! ## Report aggregator (VisitForm.tsx, report store helpers) -/

/-- `calculateTimeSpent`: whole minutes between arrival and departure,
`Math.round`ed; `0` when either timestamp is missing. -/
def calculateTimeSpent (s : Stop) : ℤ :=
  match s.arrivedAt, s.departedAt with
  | some a, some d => jsRound ((d - a) / 1000 / 60)
  | _, _ => 0

/-- The rounded completion percentage of `calculateTrends`:
`Math.round((completed / total) * 100)`, `0` for an empty stop list. -/
def completionRateOf (stops : List Stop) : ℤ :=
  if stops.length > 0 then
    jsRound ((((stops.filter (fun s => s.status = StopStatus.completed)).length : ℚ) /
      (stops.length : ℚ)) * 100)
  else 0

/-- The completion-rate trend of `calculateTrends`; always pushed. -/
def completionTrendOf (stops : List Stop) : TrendItem :=
  { label := "Completion Rate"
    value := toString (completionRateOf stops) ++ "%"
    type := if completionRateOf stops ≥ 80 then TrendType.positive
            else if completionRateOf stops ≥ 50 then TrendType.neutral
            else TrendType.negative }

/-- The issues-reported trend of `calculateTrends`, from the yes/no
responses; empty when no yes/no question text contains "issue". -/
def issueTrendsOf (yesNoResponses : List QuestionResponse) : List TrendItem :=
  let issueResponses := yesNoResponses.filter
    (fun r => includesLower r.questionText "issue")
  if issueResponses.length > 0 then
    let issuesFound :=
      (issueResponses.filter (fun r => r.value = JsValue.bool true)).length
    let issueRate : ℤ :=
      jsRound (((issuesFound : ℚ) / (issueResponses.length : ℚ)) * 100)
    [{ label := "Issues Reported"
       value := toString issueRate ++ "%"
       type := if issueRate > 30 then TrendType.negative
               else if issueRate > 10 then TrendType.neutral
               else TrendType.positive }]
  else []

/-- The follow-ups trend of `calculateTrends`, from the yes/no responses. -/
def followUpTrendsOf (yesNoResponses : List QuestionResponse) : List TrendItem :=
  let followUpResponses := yesNoResponses.filter
    (fun r => includesLower r.questionText "follow-up" ||
      includesLower r.questionText "followup")
  if followUpResponses.length > 0 then
    let followUpsNeeded :=
      (followUpResponses.filter (fun r => r.value = JsValue.bool true)).length
    [{ label := "Follow-ups Needed"
       value := toString (followUpsNeeded : ℤ)
       type := if followUpsNeeded > 0 then TrendType.neutral
               else TrendType.positive }]
  else []

/-- The average-satisfaction trend of `calculateTrends`. -/
def ratingTrendsOf (allResponses : List QuestionResponse) : List TrendItem :=
  let ratingResponses := allResponses.filter (fun r => r.type = QuestionType.rating)
  if ratingResponses.length > 0 then
    let avgRating : ℚ :=
      (ratingResponses.map (fun r => jsNumOr0 r.value)).sum /
        (ratingResponses.length : ℚ)
    [{ label := "Avg. Satisfaction"
       value := jsNumToString (jsRound (avgRating * 10) / 10) ++ "/5"
       type := if avgRating ≥ 4 then TrendType.positive
               else if avgRating ≥ 3 then TrendType.neutral
               else TrendType.negative }]
  else []

/-- `calculateTrends` (VisitForm.tsx lines 673-734): the completion trend,
then — when yes/no responses exist — the issue and follow-up trends, then
the rating trend. -/
def calculateTrends (stops : List Stop) (responsesByStop : ResponsesByStop) :
    List TrendItem :=
  let allResponses := allResponsesOf responsesByStop
  let yesNoResponses := allResponses.filter (fun r => r.type = QuestionType.yesNo)
  completionTrendOf stops ::
    ((if yesNoResponses.length > 0 then
        issueTrendsOf yesNoResponses ++ followUpTrendsOf yesNoResponses
      else []) ++
     ratingTrendsOf allResponses)

/-- The per-response and per-stop issue collection of
`calculateFlaggedIssues` (VisitForm.tsx lines 743-786), before sorting:
for each response of the stop, a medium issue for a true yes/no answer to an
issue question (appending the first truthy text description sibling), and a
rating issue for `Number(value) <= 2` (high when `Number(value) === 1`);
then a low issue when the stop is skipped. -/
def stopIssues (stop : Stop) (responses : List QuestionResponse) :
    List FlaggedIssue :=
  (responses.flatMap fun response =>
    (if response.type = QuestionType.yesNo &&
        includesLower response.questionText "issue" &&
        response.value = JsValue.bool true then
      let descriptionResponse := responses.find?
        (fun r => r.type = QuestionType.text &&
          includesLower r.questionText "description")
      [{ severity := Severity.medium
         description :=
           match descriptionResponse with
           | some dr =>
             if jsTruthy dr.value then
               "Issue at " ++ displayName stop ++ ": " ++ jsValueToString dr.value
             else "Issue reported at " ++ displayName stop
           | none => "Issue reported at " ++ displayName stop
         stopId := stop.id : FlaggedIssue }]
    else []) ++
    (if response.type = QuestionType.rating && jsNumLE response.value 2 then
      [{ severity := if jsNumEq response.value 1 then Severity.high
                     else Severity.medium
         description := "Low satisfaction rating (" ++ jsValueToString response.value ++
           "/5) at " ++ displayName stop
         stopId := stop.id : FlaggedIssue }]
    else [])) ++
  (if stop.status = StopStatus.skipped then
    [{ severity := Severity.low
       description := "Stop skipped: " ++ displayName stop
       stopId := stop.id : FlaggedIssue }]
  else [])

/-- `severityOrder = { high: 0, medium: 1, low: 2 }`. -/
def severityRank : Severity → ℤ
  | Severity.high => 0
  | Severity.medium => 1
  | Severity.low => 2

/-- Stable insertion of an element into a list sorted by an integer key:
the element goes in front of the first element of key not smaller than its
own. -/
def insertByKey (key : α → ℤ) (a : α) : List α → List α
  | [] => [a]
  | b :: bs => if key a ≤ key b then a :: b :: bs else b :: insertByKey key a bs

/-- Stable sort by an integer key.  `Array.prototype.sort` with the
comparator `(a, b) => key a - key b` is required to be stable by the
ECMAScript specification (ES2019), which this insertion sort realizes. -/
def stableSortByKey (key : α → ℤ) (l : List α) : List α :=
  l.foldr (insertByKey key) []

/-- `calculateFlaggedIssues` (VisitForm.tsx lines 737-791). -/
def calculateFlaggedIssues (stops : List Stop)
    (responsesByStop : ResponsesByStop) : List FlaggedIssue :=
  let issues := stops.flatMap fun stop =>
    stopIssues stop (responsesFor responsesByStop stop.id)
  stableSortByKey (fun i => severityRank i.severity) issues

/-- `calculateSummary` (VisitForm.tsx lines 616-670).  The `observations`
field is left empty here and filled by `generateAIInsights`, as in the
source. -/
def calculateSummary (route : Route) (stops : List Stop)
    (responsesByStop : ResponsesByStop) : ExecutiveSummary :=
  let completedStops := stops.filter (fun s => s.status = StopStatus.completed)
  let skippedStops := stops.filter (fun s => s.status = StopStatus.skipped)
  let totalOnSiteTime : ℤ := (completedStops.map calculateTimeSpent).sum
  let totalDriveTime : ℤ :=
    max 0 (jsRound (route.totalDuration / 60) - totalOnSiteTime)
  let totalTime : ℤ :=
    match route.startedAt, route.completedAt with
    | some st, some ct => jsRound ((ct - st) / 1000 / 60)
    | _, _ => totalOnSiteTime + totalDriveTime
  let hoursWorked : ℚ := (totalTime : ℚ) / 60
  let locationsPerHour : ℚ :=
    if hoursWorked > 0 then (completedStops.length : ℚ) / hoursWorked else 0
  let averageTimePerStop : ℚ :=
    if completedStops.length > 0 then
      (totalOnSiteTime : ℚ) / (completedStops.length : ℚ)
    else 0
  { totalStops := stops.length
    completedStops := completedStops.length
    skippedStops := skippedStops.length
    totalDriveTime := totalDriveTime
    totalOnSiteTime := totalOnSiteTime
    totalTime := totalTime
    locationsPerHour := (jsRound (locationsPerHour * 10) : ℚ) / 10
    averageTimePerStop := jsRound averageTimePerStop
    totalDistance := (jsRound (route.totalDistance / 1000 * 10) : ℚ) / 10
    trends := calculateTrends stops responsesByStop
    observations := []
    flaggedIssues := calculateFlaggedIssues stops responsesByStop }

/-- `Math.max(...l)` for a nonempty list (`0` as unused empty default). -/
def listMaxD : List ℚ → ℚ
  | [] => 0
  | a :: rest => rest.foldl max a

/-- `generateAIInsights` (reportService.ts).  Observations are produced in
source push order.  One JavaScript artifact is modeled explicitly: when
issue responses exist but no stop is completed, `issueRate` is a division by
zero, hence `Infinity`, which takes the high-issue-rate branch. -/
def generateAIInsights (route : Route) (stops : List Stop)
    (responsesByStop : ResponsesByStop) : List Observation :=
  let allResponses := allResponsesOf responsesByStop
  let completedStops := stops.filter (fun s => s.status = StopStatus.completed)
  let completionRate : ℚ :=
    if stops.length > 0 then
      ((completedStops.length : ℚ) / (stops.length : ℚ)) * 100
    else 0
  let completionObs : List Observation :=
    if completionRate = 100 then [Observation.allCompleted]
    else if completionRate ≥ 80 then
      [Observation.strongCompletion completionRate
        (stops.length - completedStops.length)]
    else if completionRate < 50 then [Observation.lowCompletion completionRate]
    else []
  let stopTimes : List ℚ :=
    (completedStops.filter (fun s => s.arrivedAt.isSome && s.departedAt.isSome)).map
      fun s => ((s.departedAt.getD 0) - (s.arrivedAt.getD 0)) / 1000 / 60
  let timeObs : List Observation :=
    if stopTimes.length > 0 then
      let avgTime := stopTimes.sum / (stopTimes.length : ℚ)
      let maxTime := listMaxD stopTimes
      (if maxTime > avgTime * 2 then [Observation.longStops maxTime avgTime]
       else []) ++
      (if avgTime < 5 then [Observation.quickVisits]
       else if avgTime > 30 then [Observation.extendedVisits avgTime]
       else [])
    else []
  let issueResponses := allResponses.filter fun r =>
    r.type = QuestionType.yesNo && includesLower r.questionText "issue" &&
      r.value = JsValue.bool true
  let issueObs : List Observation :=
    if issueResponses.length > 0 then
      if completedStops.length = 0 ∨
          ((issueResponses.length : ℚ) / (completedStops.length : ℚ)) * 100 > 50 then
        [Observation.highIssueRate issueResponses.length completedStops.length]
      else [Observation.someIssues issueResponses.length]
    else if completedStops.length > 0 then [Observation.noIssues]
    else []
  let followUpResponses := allResponses.filter fun r =>
    r.type = QuestionType.yesNo &&
      (includesLower r.questionText "follow-up" ||
        includesLower r.questionText "followup") &&
      r.value = JsValue.bool true
  let followUpObs : List Observation :=
    if followUpResponses.length > 0 then
      [Observation.followUps followUpResponses.length]
    else []
  let ratingResponses := allResponses.filter
    (fun r => r.type = QuestionType.rating)
  let ratingObs : List Observation :=
    if ratingResponses.length > 0 then
      let avgRating : ℚ :=
        (ratingResponses.map (fun r => jsNumOr0 r.value)).sum /
          (ratingResponses.length : ℚ)
      (if avgRating ≥ 4.5 then [Observation.excellentSatisfaction avgRating]
       else if avgRating ≥ 4 then [Observation.goodSatisfaction avgRating]
       else if avgRating < 3 then [Observation.lowSatisfaction avgRating]
       else []) ++
      (let lowRatings := ratingResponses.filter (fun r => jsNumLE r.value 2)
       if lowRatings.length > 0 then [Observation.lowRatings lowRatings.length]
       else [])
    else []
  let skippedStops := stops.filter (fun s => s.status = StopStatus.skipped)
  let skippedObs : List Observation :=
    if skippedStops.length > 0 then
      [Observation.stopsSkipped skippedStops.length (skippedStops.map displayName)]
    else []
  let truthyImage : Option String → Bool := fun o =>
    match o with
    | some s => s ≠ ""
    | none => false
  let photoResponses := allResponses.filter
    (fun r => r.type = QuestionType.photo && truthyImage r.imageData)
  let photoObs : List Observation :=
    if photoResponses.length > 0 then [Observation.photos photoResponses.length]
    else []
  let signatureResponses := allResponses.filter
    (fun r => r.type = QuestionType.signature && truthyImage r.imageData)
  let signatureObs : List Observation :=
    if signatureResponses.length > 0 then
      [Observation.signatures signatureResponses.length]
    else []
  let efficiencyObs : List Observation :=
    if route.totalDistance > 0 ∧ completedStops.length > 0 then
      let milesPerStop := route.totalDistance / 1609.34 / (completedStops.length : ℚ)
      if milesPerStop > 6 then [Observation.highDistancePerStop milesPerStop]
      else if milesPerStop < 1.2 then [Observation.efficientClustering]
      else []
    else []
  let observations := completionObs ++ timeObs ++ issueObs ++ followUpObs ++
    ratingObs ++ skippedObs ++ photoObs ++ signatureObs ++ efficiencyObs
  if observations.length = 0 then [Observation.defaultFallback] else observations

/-! ## Report generation against the store (VisitForm.tsx lines 451-533) -/

/-- A `StopReport` record. -/
structure StopReport where
  stopId : String
  address : String
  name : Option String
  timeSpent : ℤ
  arrivedAt : Option ℚ
  departedAt : Option ℚ
  status : StopStatus
  responses : List QuestionResponse
deriving DecidableEq

/-- A `DayReport` record. -/
structure DayReport where
  id : String
  routeId : String
  userId : String
  date : String
  summary : ExecutiveSummary
  stopReports : List StopReport
  generatedAt : ℚ
deriving DecidableEq

/-- The local Dexie store, restricted to the tables `generateReport` reads
and writes. -/
structure Db where
  routes : List Route
  stops : List Stop
  questionResponses : List QuestionResponse
  dayReports : List DayReport

/-- One step of the `reduce` that groups responses by stop id: append the
response to its stop's bucket, creating the bucket on first encounter. -/
def addToGroup (acc : ResponsesByStop) (r : QuestionResponse) : ResponsesByStop :=
  if acc.any (fun kv => kv.1 = r.stopId) then
    acc.map fun kv => if kv.1 = r.stopId then (kv.1, kv.2 ++ [r]) else kv
  else acc ++ [(r.stopId, [r])]

/-- `allResponses.reduce(...)`: group responses by stop id, buckets in key
first-encounter order, responses in encounter order. -/
def groupByStop (rs : List QuestionResponse) : ResponsesByStop :=
  rs.foldl addToGroup []

/-- `generateReport` (VisitForm.tsx lines 451-533).  `newId` models
`crypto.randomUUID()` and `now` models `new Date()`, both external inputs of
the embedding.  A missing route record is the error path `throw new
Error('Route not found')`, modeled as `Except.error`; the success path
returns the new `dayReports` table together with the stored report. -/
def generateReport (db : Db) (routeId : String) (newId : String) (now : ℚ) :
    Except String (List DayReport × DayReport) :=
  match db.routes.find? (fun r => r.id = routeId) with
  | none => Except.error "Route not found"
  | some route =>
    let stops := stableSortByKey (fun s => s.order)
      (db.stops.filter (fun s => s.routeId = routeId))
    let allResponses := db.questionResponses.filter (fun r => r.routeId = routeId)
    let responsesByStop := groupByStop allResponses
    let summary0 := calculateSummary route stops responsesByStop
    let aiObservations := generateAIInsights route stops responsesByStop
    let summary := { summary0 with observations := aiObservations }
    let stopReports : List StopReport := stops.map fun stop =>
      { stopId := stop.id
        address := stop.address
        name := stop.name
        timeSpent := calculateTimeSpent stop
        arrivedAt := stop.arrivedAt
        departedAt := stop.departedAt
        status := stop.status
        responses := responsesFor responsesByStop stop.id }
    let report : DayReport :=
      { id := newId
        routeId := routeId
        userId := route.userId
        date := route.date
        summary := summary
        stopReports := stopReports
        generatedAt := now }
    match db.dayReports.find? (fun dr => dr.routeId = routeId) with
    | some existingReport =>
      let updated := { report with id := existingReport.id }
      Except.ok
        (db.dayReports.map (fun dr => if dr.id = existingReport.id then updated else dr),
         updated)
    | none => Except.ok (db.dayReports ++ [report], report)

/-! ## Route optimizer (src/web/src/services/routeService.ts)

The optimizer's distance arithmetic is real-valued (trigonometric), so the
tour-construction loop is stated generically over the distance function and
an ordered field of distances, and `basicOptimization` instantiates it with
the haversine distance on ℝ, exactly as the source hardcodes it. -/

/-- A latitude/longitude pair in decimal degrees. -/
structure Coordinates where
  lat : ℝ
  lng : ℝ

instance : Inhabited Coordinates := ⟨⟨0, 0⟩⟩

/-- JavaScript `Math.atan2 y x`. -/
noncomputable def atan2 (y x : ℝ) : ℝ :=
  if 0 < x then Real.arctan (y / x)
  else if x < 0 ∧ 0 ≤ y then Real.arctan (y / x) + Real.pi
  else if x < 0 ∧ y < 0 then Real.arctan (y / x) - Real.pi
  else if x = 0 ∧ 0 < y then Real.pi / 2
  else if x = 0 ∧ y < 0 then -(Real.pi / 2)
  else 0

/-- `haversineDistance` (routeService.ts lines 211-227): great-circle
distance in meters, Earth radius 6,371,000 m.  (`p`/`q` stand for the
source's `from`/`to`, which are reserved words here.) -/
noncomputable def haversineDistance (p q : Coordinates) : ℝ :=
  let R : ℝ := 6371e3
  let lat1 := p.lat * Real.pi / 180
  let lat2 := q.lat * Real.pi / 180
  let deltaLat := (q.lat - p.lat) * Real.pi / 180
  let deltaLng := (q.lng - p.lng) * Real.pi / 180
  let a := Real.sin (deltaLat / 2) * Real.sin (deltaLat / 2) +
    Real.cos lat1 * Real.cos lat2 *
      Real.sin (deltaLng / 2) * Real.sin (deltaLng / 2)
  let c := 2 * atan2 (Real.sqrt a) (Real.sqrt (1 - a))
  R * c

/-- `estimateDuration` (routeService.ts lines 232-235): distance divided by
25 mph expressed in meters per second. -/
def estimateDuration {β : Type} [LinearOrderedField β] (distanceMeters : β) : β :=
  distanceMeters / (25 * 1609.34 / 3600)

/-- `calculateTotalDistance` (routeService.ts lines 200-206): sum of the
distances between consecutive points of the list. -/
def calculateTotalDistance {α β : Type} [LinearOrderedField β]
    (d : α → α → β) : List α → β
  | [] => 0
  | [_] => 0
  | a :: b :: rest => d a b + calculateTotalDistance d (b :: rest)

/-- The result record of the optimizer (`legs`, always `[]`, omitted). -/
structure RouteOptimizationResult (β : Type) where
  orderedStops : List ℕ
  totalDistance : β
  totalDuration : β
deriving DecidableEq

/-- One index of the inner scan of `basicOptimization`: keep the incumbent
unless the candidate is strictly nearer (`none` is the `(-1, Infinity)`
initial state, which any distance beats). -/
def selectStep {α β : Type} [Inhabited α] [LinearOrderedField β]
    (d : α → α → β) (coords : List α) (cur : α)
    (best : Option (ℕ × β)) (i : ℕ) : Option (ℕ × β) :=
  let dist := d cur (coords.getD i default)
  match best with
  | none => some (i, dist)
  | some (j, bd) => if dist < bd then some (i, dist) else some (j, bd)

/-- The inner `for` scan of `basicOptimization`: nearest unvisited index
from the current point, first (lowest-index) strict minimum winning ties. -/
def selectNearest {α β : Type} [Inhabited α] [LinearOrderedField β]
    (d : α → α → β) (coords : List α) (cur : α)
    (remaining : List ℕ) : Option (ℕ × β) :=
  remaining.foldl (selectStep d coords cur) none

/-- The `while` loop of `basicOptimization`.  The source loops until every
index is visited, adding exactly one index per iteration; `fuel` is
instantiated with the number of unvisited indices, making the iteration
count explicit.  Returns the appended order and the accumulated distance. -/
def nnLoop {α β : Type} [Inhabited α] [LinearOrderedField β]
    (d : α → α → β) (coords : List α) :
    ℕ → α → List ℕ → List ℕ × β
  | 0, _, _ => ([], 0)
  | Nat.succ fuel, cur, remaining =>
    match selectNearest d coords cur remaining with
    | none => ([], 0)
    | some (j, dist) =>
      let res := nnLoop d coords fuel (coords.getD j default) (remaining.erase j)
      (j :: res.1, dist + res.2)

/-- `basicOptimization` (routeService.ts lines 145-195), generic in the
distance function.  For at most two points the order is the identity
(`coordinates.map((_, i) => i)`); otherwise index 0 is visited first and the
loop greedily appends the nearest unvisited index. -/
def basicOptimizationGen {α β : Type} [Inhabited α] [LinearOrderedField β]
    (d : α → α → β) (coords : List α) : RouteOptimizationResult β :=
  if coords.length ≤ 2 then
    { orderedStops := List.range coords.length
      totalDistance := calculateTotalDistance d coords
      totalDuration := estimateDuration (calculateTotalDistance d coords) }
  else
    let res := nnLoop d coords (coords.length - 1) (coords.getD 0 default)
      (List.range coords.length).tail
    { orderedStops := 0 :: res.1
      totalDistance := res.2
      totalDuration := estimateDuration res.2 }

/-- `basicOptimization` as the source ships it: the greedy loop over the
haversine distance. -/
noncomputable def basicOptimization (coords : List Coordinates) :
    RouteOptimizationResult ℝ :=
  basicOptimizationGen haversineDistance coords

/-- Sum of the distances between consecutive points taken in the order
given by an index list (the specification's reading of the reported total
distance). -/
def sumAlongOrder {α β : Type} [Inhabited α] [LinearOrderedField β]
    (d : α → α → β) (coords : List α) (order : List ℕ) : β :=
  calculateTotalDistance d (order.map fun i => coords.getD i default)

/-- Modelled from the spec's words for the flagged-issue list: the issues
are "collected per stop, per response, then globally sorted by severity
high→medium→low, stable within a severity tier in encounter order" — that
is, the collected high-severity issues in encounter order, then the medium
ones, then the low ones.  The per-stop, per-response collection reuses
`stopIssues`, whose rules the claim states verbatim (a medium issue per
true issue yes/no response with the description rule, a rating issue per
rating response with coerced value ≤ 2, a low issue per skipped stop). -/
def specFlaggedIssues (stops : List Stop)
    (responsesByStop : ResponsesByStop) : List FlaggedIssue :=
  let collected := stops.flatMap fun stop =>
    stopIssues stop (responsesFor responsesByStop stop.id)
  collected.filter (fun i => i.severity = Severity.high) ++
    collected.filter (fun i => i.severity = Severity.medium) ++
    collected.filter (fun i => i.severity = Severity.low)

/-- The distance accumulated along a chain of points starting from a given
current point. -/
def chainFrom {α β : Type} [LinearOrderedField β] (d : α → α → β) :
    α → List α → β
  | _, [] => 0
  | p, q :: rest => d p q + chainFrom d q rest

/-- `j` is an unvisited index (member of `rem`) whose haversine-style
distance from the current point (index `cur`) is minimal among the
unvisited indices, and the lowest such index among equidistant ones. -/
def NearestChoice {α β : Type} [Inhabited α] [LinearOrderedField β]
    (d : α → α → β) (coords : List α) (rem : List ℕ) (cur j : ℕ) : Prop :=
  j ∈ rem ∧
  (∀ i ∈ rem, d (coords.getD cur default) (coords.getD j default) ≤
    d (coords.getD cur default) (coords.getD i default)) ∧
  (∀ i ∈ rem, d (coords.getD cur default) (coords.getD i default) =
    d (coords.getD cur default) (coords.getD j default) → j ≤ i)

/-- `GreedyFrom d coords cur rem ord`: starting at index `cur` with `rem`
the unvisited indices, `ord` is exactly the visit order that, at every
iteration, appends an unvisited index of minimal distance from the current
point (lowest index on ties), marks it visited, and continues from it. -/
inductive GreedyFrom {α β : Type} [Inhabited α] [LinearOrderedField β]
    (d : α → α → β) (coords : List α) : ℕ → List ℕ → List ℕ → Prop where
  | nil (cur : ℕ) : GreedyFrom d coords cur [] []
  | cons (cur j : ℕ) (rem ord : List ℕ) :
      NearestChoice d coords rem cur j →
      GreedyFrom d coords j (rem.erase j) ord →
      GreedyFrom d coords cur rem (j :: ord)

/-! ## Spec-side readings and concrete inputs used by the claims -/

/-- The yes/no responses whose question text contains "issue"
(case-insensitive), as filtered by the trends and insight code. -/
def issueResponsesOf (rb : ResponsesByStop) : List QuestionResponse :=
  ((allResponsesOf rb).filter (fun r => r.type = QuestionType.yesNo)).filter
    (fun r => includesLower r.questionText "issue")

/-- The rounded issues-reported percentage of `calculateTrends`:
`Math.round((issuesFound / issueResponses.length) * 100)`. -/
def issueRateOf (rb : ResponsesByStop) : ℤ :=
  jsRound ((((issueResponsesOf rb).filter
      (fun r => r.value = JsValue.bool true)).length : ℚ) /
    ((issueResponsesOf rb).length : ℚ) * 100)

/-- The flagged issue the code emits for a rating response whose value is
`null`: `Number(null)` is `0`, so the rating branch fires with `0 ≤ 2` and
`0 ≠ 1`, interpolating the value as the string "null". -/
def nullRatingIssue (stop : Stop) : FlaggedIssue :=
  { severity := Severity.medium
    description := "Low satisfaction rating (null/5) at " ++ displayName stop
    stopId := stop.id }

/-- A freshly created route with no distance, duration or timestamps. -/
def zeroRoute : Route :=
  { id := "r0", userId := "u", date := "2026-01-01", totalDistance := 0,
    totalDuration := 0, startedAt := none, completedAt := none }

/-- The five stops of the full-day scenario: four completed with on-site
times 10, 10, 10 and 50 minutes, one skipped. -/
def scenarioStops : List Stop :=
  [ { id := "s1", routeId := "r", address := "Addr 1", name := none, order := 0,
      status := StopStatus.completed, arrivedAt := some 0,
      departedAt := some 600000 },
    { id := "s2", routeId := "r", address := "Addr 2", name := none, order := 1,
      status := StopStatus.completed, arrivedAt := some 600000,
      departedAt := some 1200000 },
    { id := "s3", routeId := "r", address := "Addr 3", name := none, order := 2,
      status := StopStatus.completed, arrivedAt := some 1200000,
      departedAt := some 1800000 },
    { id := "s4", routeId := "r", address := "Addr 4", name := none, order := 3,
      status := StopStatus.completed, arrivedAt := some 1800000,
      departedAt := some 4800000 },
    { id := "s5", routeId := "r", address := "Addr 5", name := none, order := 4,
      status := StopStatus.skipped, arrivedAt := none, departedAt := none } ]

/-- The route of the full-day scenario: 3600 s estimated duration, 40000 m
distance, started and completed exactly five hours apart. -/
def scenarioRoute : Route :=
  { id := "r", userId := "u", date := "2026-01-01", totalDistance := 40000,
    totalDuration := 3600, startedAt := some 0, completedAt := some 18000000 }

/-- 101 stops with 50 completed: the exact completion rate is 5000/101 %,
just below 50 %, but it rounds to 50. -/
def boundaryStops : List Stop :=
  List.replicate 50
    { id := "c", routeId := "r", address := "Addr c", name := none, order := 0,
      status := StopStatus.completed, arrivedAt := none, departedAt := none } ++
  List.replicate 51
    { id := "p", routeId := "r", address := "Addr p", name := none, order := 0,
      status := StopStatus.pending, arrivedAt := none, departedAt := none }

/-- A yes/no issue response with the given answer. -/
def issueResp (v : Bool) : QuestionResponse :=
  { stopId := "s1", routeId := "r", questionText := "Any issues found?",
    type := QuestionType.yesNo, value := JsValue.bool v, imageData := none }

/-- 48 issue responses, 5 answered yes: the exact issue rate is 125/12 %,
strictly between 10 % and 30 %, but it rounds to 10. -/
def boundaryIssuesRb : ResponsesByStop :=
  [("s1", List.replicate 5 (issueResp true) ++
    List.replicate 43 (issueResp false))]

/-- A completed stop with a single null-valued rating response. -/
def nullRatingStop : Stop :=
  { id := "s1", routeId := "r", address := "Addr 1", name := none, order := 0,
    status := StopStatus.completed, arrivedAt := none, departedAt := none }

/-- The null-valued (unanswered) rating response. -/
def nullRatingResp : QuestionResponse :=
  { stopId := "s1", routeId := "r", questionText := "Overall satisfaction",
    type := QuestionType.rating, value := JsValue.null, imageData := none }

/-- The response table holding only the null-valued rating response. -/
def nullRatingRb : ResponsesByStop := [("s1", [nullRatingResp])]

/-- Three coordinates, two of them identical (a zero inter-point
distance). -/
def coordsEx : List Coordinates := [⟨0, 0⟩, ⟨0, 0⟩, ⟨0, 1⟩]

/-! ## Properties of the stable severity sort -/

theorem insertByKey_perm {α : Type} (key : α → ℤ) (a : α) (l : List α) :
    (insertByKey key a l).Perm (a :: l) := by
  induction l with
  | nil => simp [insertByKey]
  | cons b bs ih =>
    simp only [insertByKey]
    split
    · exact List.Perm.refl _
    · exact ((ih.cons b).trans (List.Perm.swap a b bs))

theorem stableSortByKey_perm {α : Type} (key : α → ℤ) (l : List α) :
    (stableSortByKey key l).Perm l := by
  induction l with
  | nil => simp [stableSortByKey]
  | cons a l ih =>
    simpa [stableSortByKey] using (insertByKey_perm key a _).trans (ih.cons a)

theorem mem_stableSortByKey {α : Type} (key : α → ℤ) (l : List α) (a : α) :
    a ∈ stableSortByKey key l ↔ a ∈ l :=
  (stableSortByKey_perm key l).mem_iff

theorem insertByKey_front {α : Type} (key : α → ℤ) (a : α) (l : List α)
    (h : ∀ b ∈ l, key a ≤ key b) : insertByKey key a l = a :: l := by
  cases l with
  | nil => rfl
  | cons b bs => simp [insertByKey, h b (List.mem_cons_self b bs)]

theorem insertByKey_skip {α : Type} (key : α → ℤ) (a : α) (l₁ l₂ : List α)
    (h : ∀ b ∈ l₁, ¬ key a ≤ key b) :
    insertByKey key a (l₁ ++ l₂) = l₁ ++ insertByKey key a l₂ := by
  induction l₁ with
  | nil => rfl
  | cons b bs ih =>
    simp only [List.cons_append, insertByKey, h b (List.mem_cons_self b bs),
      if_false]
    exact congrArg (List.cons b) (ih fun c hc => h c (List.mem_cons_of_mem b hc))

/-- A stable sort on a three-valued key is the concatenation of the three
key classes, each in encounter order. -/
theorem stableSortByKey_three {α : Type} (key : α → ℤ) (l : List α)
    (h : ∀ a ∈ l, key a = 0 ∨ key a = 1 ∨ key a = 2) :
    stableSortByKey key l =
      l.filter (fun a => key a = 0) ++ l.filter (fun a => key a = 1) ++
        l.filter (fun a => key a = 2) := by
  induction l with
  | nil => rfl
  | cons a l ih =>
    have hl : ∀ b ∈ l, key b = 0 ∨ key b = 1 ∨ key b = 2 :=
      fun b hb => h b (List.mem_cons_of_mem a hb)
    have hsort : stableSortByKey key (a :: l) =
        insertByKey key a (stableSortByKey key l) := rfl
    rw [hsort, ih hl]
    have hf0 : ∀ b ∈ l.filter (fun a => key a = 0), key b = 0 := by
      intro b hb
      simpa using (List.mem_filter.mp hb).2
    have hf1 : ∀ b ∈ l.filter (fun a => key a = 1), key b = 1 := by
      intro b hb
      simpa using (List.mem_filter.mp hb).2
    have hf2 : ∀ b ∈ l.filter (fun a => key a = 2), key b = 2 := by
      intro b hb
      simpa using (List.mem_filter.mp hb).2
    rcases h a (List.mem_cons_self a l) with h0 | h1 | h2
    · rw [insertByKey_front]
      · simp [List.filter_cons, h0]
      · intro b hb
        rcases List.mem_append.mp hb with hb' | hb'
        · rcases List.mem_append.mp hb' with hb'' | hb''
          · rw [h0, hf0 b hb'']
          · rw [h0, hf1 b hb'']; omega
        · rw [h0, hf2 b hb']; omega
    · rw [List.append_assoc, insertByKey_skip, insertByKey_front]
      · simp [List.filter_cons, h1, List.append_assoc]
      · intro b hb
        rcases List.mem_append.mp hb with hb' | hb'
        · rw [h1, hf1 b hb']
        · rw [h1, hf2 b hb']; omega
      · intro b hb
        rw [h1, hf0 b hb]; omega
    · rw [insertByKey_skip, insertByKey_front]
      · simp [List.filter_cons, h2]
      · intro b hb
        rw [h2, hf2 b hb]
      · intro b hb
        rcases List.mem_append.mp hb with hb' | hb'
        · rw [h2, hf0 b hb']; omega
        · rw [h2, hf1 b hb']; omega

/-- The severity classes of the rank are exactly the three severities. -/
theorem severityRank_eq_zero_iff (s : Severity) :
    severityRank s = 0 ↔ s = Severity.high := by cases s <;> simp [severityRank]

theorem severityRank_eq_one_iff (s : Severity) :
    severityRank s = 1 ↔ s = Severity.medium := by cases s <;> simp [severityRank]

theorem severityRank_eq_two_iff (s : Severity) :
    severityRank s = 2 ↔ s = Severity.low := by cases s <;> simp [severityRank]

/-! ## Properties of the nearest-neighbor loop -/

theorem calculateTotalDistance_eq_chainFrom {α β : Type}
    [LinearOrderedField β] (d : α → α → β) (p : α) (l : List α) :
    calculateTotalDistance d (p :: l) = chainFrom d p l := by
  induction l generalizing p with
  | nil => simp [calculateTotalDistance, chainFrom]
  | cons q rest ih => simp [calculateTotalDistance, chainFrom, ih]

/-- Invariant of the inner scan: the recorded distance is the distance from
the current point to the recorded index. -/
theorem selectFold_dist {α β : Type} [Inhabited α] [LinearOrderedField β]
    (d : α → α → β) (coords : List α) (cur : α) :
    ∀ (l : List ℕ) (acc : Option (ℕ × β)),
      (∀ j x, acc = some (j, x) → x = d cur (coords.getD j default)) →
      ∀ j x, l.foldl (selectStep d coords cur) acc = some (j, x) →
        x = d cur (coords.getD j default) := by
  intro l
  induction l with
  | nil => intro acc hacc j x h; exact hacc j x h
  | cons i rest ih =>
    intro acc hacc j x h
    refine ih (selectStep d coords cur acc i) ?_ j x h
    intro j' x' hstep
    match acc with
    | none =>
      simp only [selectStep] at hstep
      simp only [Option.some.injEq, Prod.mk.injEq] at hstep
      obtain ⟨h1, h2⟩ := hstep
      rw [← h1, ← h2]
    | some (j₀, x₀) =>
      simp only [selectStep] at hstep
      split at hstep
      · simp only [Option.some.injEq, Prod.mk.injEq] at hstep
        obtain ⟨h1, h2⟩ := hstep
        rw [← h1, ← h2]
      · simp only [Option.some.injEq, Prod.mk.injEq] at hstep
        obtain ⟨h1, h2⟩ := hstep
        rw [← h1, ← h2]
        exact hacc j₀ x₀ rfl

/-- Full specification of the inner scan when started from an incumbent:
it returns a minimal-distance entry, strict improvements only, so the
earliest (and, on an ascending list, lowest-index) minimum is kept. -/
theorem selectFold_spec {α β : Type} [Inhabited α] [LinearOrderedField β]
    (d : α → α → β) (coords : List α) (cur : α) :
    ∀ (l : List ℕ) (j₀ : ℕ) (x₀ : β),
      x₀ = d cur (coords.getD j₀ default) →
      (∀ i ∈ l, j₀ < i) → l.Pairwise (· < ·) →
      ∃ j x, l.foldl (selectStep d coords cur) (some (j₀, x₀)) = some (j, x) ∧
        x = d cur (coords.getD j default) ∧ (j = j₀ ∨ j ∈ l) ∧ x ≤ x₀ ∧
        (∀ i ∈ l, x ≤ d cur (coords.getD i default)) ∧
        (∀ i ∈ l, d cur (coords.getD i default) = x → j ≤ i) ∧
        (x = x₀ → j = j₀) := by
  intro l
  induction l with
  | nil =>
    intro j₀ x₀ hx _ _
    exact ⟨j₀, x₀, rfl, hx, Or.inl rfl, le_refl _, by simp, by simp,
      fun _ => rfl⟩
  | cons i rest ih =>
    intro j₀ x₀ hx hlt hpw
    have hpw' : rest.Pairwise (· < ·) := hpw.of_cons
    have hstep : selectStep d coords cur (some (j₀, x₀)) i =
        if d cur (coords.getD i default) < x₀ then
          some (i, d cur (coords.getD i default)) else some (j₀, x₀) := rfl
    by_cases hcmp : d cur (coords.getD i default) < x₀
    · have hrest : ∀ k ∈ rest, i < k := fun k hk =>
        (List.pairwise_cons.mp hpw).1 k hk
      obtain ⟨j, x, heq, hxd, hmem, hle, hmin, htie, hkeep⟩ :=
        ih i (d cur (coords.getD i default)) rfl hrest hpw'
      refine ⟨j, x, ?_, hxd, ?_, ?_, ?_, ?_, ?_⟩
      · rw [List.foldl_cons, hstep, if_pos hcmp]; exact heq
      · rcases hmem with rfl | hm
        · exact Or.inr (List.mem_cons_self _ _)
        · exact Or.inr (List.mem_cons_of_mem _ hm)
      · exact hle.trans hcmp.le
      · intro k hk
        rcases List.mem_cons.mp hk with rfl | hm
        · exact hle
        · exact hmin k hm
      · intro k hk hdk
        rcases List.mem_cons.mp hk with rfl | hm
        · rw [hkeep hdk.symm]
        · exact htie k hm hdk
      · intro hxx
        exact absurd hxx (hle.trans_lt hcmp).ne
    · push_neg at hcmp
      have hrest : ∀ k ∈ rest, j₀ < k := fun k hk =>
        hlt k (List.mem_cons_of_mem _ hk)
      obtain ⟨j, x, heq, hxd, hmem, hle, hmin, htie, hkeep⟩ :=
        ih j₀ x₀ hx hrest hpw'
      refine ⟨j, x, ?_, hxd, ?_, hle, ?_, ?_, hkeep⟩
      · rw [List.foldl_cons, hstep, if_neg (not_lt.mpr hcmp)]; exact heq
      · rcases hmem with rfl | hm
        · exact Or.inl rfl
        · exact Or.inr (List.mem_cons_of_mem _ hm)
      · intro k hk
        rcases List.mem_cons.mp hk with rfl | hm
        · exact hle.trans hcmp
        · exact hmin k hm
      · intro k hk hdk
        rcases List.mem_cons.mp hk with rfl | hm
        · have hx0 : x = x₀ := le_antisymm hle (hdk ▸ hcmp)
          rw [hkeep hx0]
          exact (hlt k (List.mem_cons_self _ _)).le
        · exact htie k hm hdk

/-- Specification of the nearest-unvisited-point scan on a nonempty
ascending list of indices: it returns an unvisited index whose distance
from the current point is minimal, the lowest such index on ties. -/
theorem selectNearest_spec {α β : Type} [Inhabited α] [LinearOrderedField β]
    (d : α → α → β) (coords : List α) (cur : α) (rem : List ℕ)
    (hne : rem ≠ []) (hpw : rem.Pairwise (· < ·)) :
    ∃ j x, selectNearest d coords cur rem = some (j, x) ∧ j ∈ rem ∧
      x = d cur (coords.getD j default) ∧
      (∀ i ∈ rem, x ≤ d cur (coords.getD i default)) ∧
      (∀ i ∈ rem, d cur (coords.getD i default) = x → j ≤ i) := by
  match rem with
  | [] => exact absurd rfl hne
  | i₀ :: rest =>
    have hrest : ∀ k ∈ rest, i₀ < k := fun k hk =>
      (List.pairwise_cons.mp hpw).1 k hk
    obtain ⟨j, x, heq, hxd, hmem, hle, hmin, htie, hkeep⟩ :=
      selectFold_spec d coords cur rest i₀ (d cur (coords.getD i₀ default)) rfl
        hrest hpw.of_cons
    refine ⟨j, x, ?_, ?_, hxd, ?_, ?_⟩
    · simpa [selectNearest, selectStep] using heq
    · rcases hmem with rfl | hm
      · exact List.mem_cons_self _ _
      · exact List.mem_cons_of_mem _ hm
    · intro k hk
      rcases List.mem_cons.mp hk with rfl | hm
      · exact hle
      · exact hmin k hm
    · intro k hk hdk
      rcases List.mem_cons.mp hk with rfl | hm
      · rw [hkeep hdk.symm]
      · exact htie k hm hdk

/-- The scan yields `some` exactly on nonempty input. -/
theorem selectNearest_ne_none {α β : Type} [Inhabited α]
    [LinearOrderedField β] (d : α → α → β) (coords : List α) (cur : α)
    (rem : List ℕ) (hne : rem ≠ []) :
    selectNearest d coords cur rem ≠ none := by
  match rem with
  | [] => exact absurd rfl hne
  | i₀ :: rest =>
    have : ∀ (l : List ℕ) (p : ℕ × β),
        l.foldl (selectStep d coords cur) (some p) ≠ none := by
      intro l
      induction l with
      | nil => intro p h; exact Option.noConfusion h
      | cons i rest ih =>
        intro p
        simp only [List.foldl_cons, selectStep]
        split
        · exact ih _
        · exact ih _
    simpa [selectNearest, selectStep] using this rest _

/-- The loop's visit order is a permutation of the unvisited indices when
the fuel equals their number. -/
theorem nnLoop_perm {α β : Type} [Inhabited α] [LinearOrderedField β]
    (d : α → α → β) (coords : List α) :
    ∀ (fuel : ℕ) (cur : α) (rem : List ℕ), fuel = rem.length →
      rem.Pairwise (· < ·) → (nnLoop d coords fuel cur rem).1.Perm rem := by
  intro fuel
  induction fuel with
  | zero =>
    intro cur rem hf _
    have : rem = [] := List.length_eq_zero.mp hf.symm
    simp [nnLoop, this]
  | succ f ih =>
    intro cur rem hf hpw
    have hne : rem ≠ [] := by
      intro h
      rw [h] at hf
      simp at hf
    obtain ⟨j, x, heq, hj, _, _, _⟩ :=
      selectNearest_spec d coords cur rem hne hpw
    have hlen : f = (rem.erase j).length := by
      rw [List.length_erase_of_mem hj]
      omega
    have hpw' : (rem.erase j).Pairwise (· < ·) :=
      hpw.sublist (List.erase_sublist j rem)
    have hrec := ih (coords.getD j default) (rem.erase j) hlen hpw'
    simp only [nnLoop, heq]
    exact (hrec.cons j).trans (List.perm_cons_erase hj).symm

/-- The loop's accumulated distance is the chained distance from the
current point along the visit order. -/
theorem nnLoop_total {α β : Type} [Inhabited α] [LinearOrderedField β]
    (d : α → α → β) (coords : List α) :
    ∀ (fuel : ℕ) (cur : α) (rem : List ℕ),
      (nnLoop d coords fuel cur rem).2 =
        chainFrom d cur
          ((nnLoop d coords fuel cur rem).1.map fun i => coords.getD i default) := by
  intro fuel
  induction fuel with
  | zero => intro cur rem; simp [nnLoop, chainFrom]
  | succ f ih =>
    intro cur rem
    match heq : selectNearest d coords cur rem with
    | none => simp [nnLoop, heq, chainFrom]
    | some (j, x) =>
      have hx : x = d cur (coords.getD j default) := by
        refine selectFold_dist d coords cur rem none ?_ j x ?_
        · intro j' x' h; exact Option.noConfusion h
        · simpa [selectNearest] using heq
      simp only [nnLoop, heq, List.map_cons, chainFrom]
      rw [hx, ih]

/-- The loop realizes the greedy relation on an ascending unvisited list. -/
theorem nnLoop_greedyFrom {α β : Type} [Inhabited α] [LinearOrderedField β]
    (d : α → α → β) (coords : List α) :
    ∀ (fuel c : ℕ) (rem : List ℕ), fuel = rem.length →
      rem.Pairwise (· < ·) →
      GreedyFrom d coords c rem
        (nnLoop d coords fuel (coords.getD c default) rem).1 := by
  intro fuel
  induction fuel with
  | zero =>
    intro c rem hf _
    have : rem = [] := List.length_eq_zero.mp hf.symm
    subst this
    simpa [nnLoop] using GreedyFrom.nil c
  | succ f ih =>
    intro c rem hf hpw
    have hne : rem ≠ [] := by
      intro h
      rw [h] at hf
      simp at hf
    obtain ⟨j, x, heq, hj, hxd, hmin, htie⟩ :=
      selectNearest_spec d coords (coords.getD c default) rem hne hpw
    have hlen : f = (rem.erase j).length := by
      rw [List.length_erase_of_mem hj]
      omega
    have hpw' : (rem.erase j).Pairwise (· < ·) :=
      hpw.sublist (List.erase_sublist j rem)
    simp only [nnLoop, heq]
    refine GreedyFrom.cons c j rem _ ⟨hj, ?_, ?_⟩ (ih j (rem.erase j) hlen hpw')
    · intro i hi
      rw [← hxd]
      exact hmin i hi
    · intro i hi hd
      exact htie i hi (by rw [hd, hxd])

/-! ## Top-level optimizer facts -/

theorem range_tail_length (n : ℕ) : ((List.range n).tail).length = n - 1 := by
  simp [List.length_tail, List.length_range]

theorem range_tail_pairwise (n : ℕ) :
    ((List.range n).tail).Pairwise (· < ·) :=
  (List.pairwise_lt_range n).sublist (List.tail_sublist _)

theorem range_eq_cons_tail (n : ℕ) (h : 0 < n) :
    List.range n = 0 :: (List.range n).tail := by
  match n, h with
  | Nat.succ m, _ =>
    rw [List.range_succ_eq_map]
    rfl

/-- The fallback optimizer's order is a permutation of `[0..n-1]` starting
with index `0`, for every coordinate list with at least two entries
(duplicates included: no distinctness is assumed anywhere). -/
theorem basicOptimizationGen_perm {α β : Type} [Inhabited α]
    [LinearOrderedField β] (d : α → α → β) (coords : List α)
    (h : 2 ≤ coords.length) :
    (basicOptimizationGen d coords).orderedStops.Perm
      (List.range coords.length) ∧
    (basicOptimizationGen d coords).orderedStops.head? = some 0 := by
  by_cases h2 : coords.length ≤ 2
  · have hn : coords.length = 2 := le_antisymm h2 h
    simp only [basicOptimizationGen, if_pos h2]
    refine ⟨List.Perm.refl _, ?_⟩
    rw [hn]
    rfl
  · simp only [basicOptimizationGen, if_neg h2]
    have hf : coords.length - 1 = ((List.range coords.length).tail).length := by
      rw [range_tail_length]
    have hperm := nnLoop_perm d coords (coords.length - 1)
      (coords.getD 0 default) ((List.range coords.length).tail) hf
      (range_tail_pairwise _)
    refine ⟨?_, rfl⟩
    have hcons := hperm.cons 0
    rwa [← range_eq_cons_tail coords.length (by omega)] at hcons

/-- The fallback optimizer's reported distance is the sum of consecutive
distances along its returned order, and the duration is that distance
divided by 25 mph in meters per second. -/
theorem basicOptimizationGen_total {α β : Type} [Inhabited α]
    [LinearOrderedField β] (d : α → α → β) (coords : List α)
    (h : 2 ≤ coords.length) :
    (basicOptimizationGen d coords).totalDistance =
      sumAlongOrder d coords (basicOptimizationGen d coords).orderedStops ∧
    (basicOptimizationGen d coords).totalDuration =
      (basicOptimizationGen d coords).totalDistance / (25 * 1609.34 / 3600) := by
  by_cases h2 : coords.length ≤ 2
  · have hn : coords.length = 2 := le_antisymm h2 h
    obtain ⟨a, b, rfl⟩ := List.length_eq_two.mp hn
    constructor
    · simp only [basicOptimizationGen, sumAlongOrder]
      norm_num [calculateTotalDistance]
    · rfl
  · simp only [basicOptimizationGen, if_neg h2]
    have htot := nnLoop_total d coords (coords.length - 1)
      (coords.getD 0 default) ((List.range coords.length).tail)
    constructor
    · rw [htot, sumAlongOrder, List.map_cons,
        calculateTotalDistance_eq_chainFrom]
    · rfl

/-! ## Trend helper lemmas -/

/-- On the yes/no responses of a table, the issue-trend block is a
singleton exactly when an issue response exists, with the rounded rate and
the code's strict classification thresholds. -/
theorem issueTrendsOf_eq (rb : ResponsesByStop) :
    issueTrendsOf ((allResponsesOf rb).filter
        (fun r => r.type = QuestionType.yesNo)) =
      if (issueResponsesOf rb).length > 0 then
        [{ label := "Issues Reported", value := toString (issueRateOf rb) ++ "%",
           type := if issueRateOf rb > 30 then TrendType.negative
                   else if issueRateOf rb > 10 then TrendType.neutral
                   else TrendType.positive }]
      else [] := rfl

theorem label_of_mem_followUpTrendsOf {l : List QuestionResponse}
    {t : TrendItem} (h : t ∈ followUpTrendsOf l) :
    t.label = "Follow-ups Needed" := by
  simp only [followUpTrendsOf] at h
  split at h
  · rw [List.mem_singleton.mp h]
  · exact absurd h (List.not_mem_nil t)

theorem label_of_mem_ratingTrendsOf {l : List QuestionResponse}
    {t : TrendItem} (h : t ∈ ratingTrendsOf l) :
    t.label = "Avg. Satisfaction" := by
  simp only [ratingTrendsOf] at h
  split at h
  · rw [List.mem_singleton.mp h]
  · exact absurd h (List.not_mem_nil t)

/-! ## The claims -/

/-- Claim C1, as stated, is false on the code: for a route with zero stops
and no responses the trends list is not empty (the completion-rate trend is
pushed unconditionally, as "0 %, negative"), and the single observation is
the low-completion-rate observation, not the default fallback (the
completion branch fires first, so the fallback never does). -/
theorem claim_C1_counterexample :
    calculateTrends [] [] ≠ [] ∧
    generateAIInsights zeroRoute [] [] = [Observation.lowCompletion 0] ∧
    Observation.lowCompletion 0 ≠ Observation.defaultFallback := by
  refine ⟨by simp [calculateTrends], ?_, by simp⟩
  norm_num +decide [generateAIInsights, zeroRoute, allResponsesOf, List.filter]

/-- Claim C1, amended: for a route with zero stops and no responses (and
zero stored totals and no start/completion timestamps, so that nothing
nonzero can leak into the metrics), the generated summary has all-zero
numeric metrics, an empty flagged-issues list, a trends list containing
exactly the completion-rate trend (value "0%", negative), and the
observation list is exactly the low-completion-rate observation — not the
default fallback observation. -/
theorem claim_C1_amended (route : Route) (hdur : route.totalDuration = 0)
    (hdist : route.totalDistance = 0)
    (hts : route.startedAt = none ∨ route.completedAt = none) :
    calculateSummary route [] [] =
      { totalStops := 0, completedStops := 0, skippedStops := 0,
        totalDriveTime := 0, totalOnSiteTime := 0, totalTime := 0,
        locationsPerHour := 0, averageTimePerStop := 0, totalDistance := 0,
        trends := [{ label := "Completion Rate", value := "0%",
                     type := TrendType.negative }],
        observations := [], flaggedIssues := [] } ∧
    generateAIInsights route [] [] = [Observation.lowCompletion 0] := by
  obtain ⟨rid, ruid, rdate, rdist, rdur, rst, rct⟩ := route
  dsimp only at hdur hdist hts
  subst hdur hdist
  rcases hts with h | h
  · subst h
    norm_num +decide [calculateSummary, calculateTrends, completionTrendOf,
      completionRateOf, calculateFlaggedIssues, stableSortByKey, allResponsesOf,
      generateAIInsights, jsRound, ratingTrendsOf, List.filter]
  · subst h
    rcases rst with _ | st <;>
      norm_num +decide [calculateSummary, calculateTrends, completionTrendOf,
        completionRateOf, calculateFlaggedIssues, stableSortByKey, allResponsesOf,
        generateAIInsights, jsRound, ratingTrendsOf, List.filter]

/-- Witness for C1 at the concrete zero route. -/
theorem claim_C1_witness :
    (zeroRoute.totalDuration = 0 ∧ zeroRoute.totalDistance = 0 ∧
      (zeroRoute.startedAt = none ∨ zeroRoute.completedAt = none)) ∧
    (calculateSummary zeroRoute [] [] =
      { totalStops := 0, completedStops := 0, skippedStops := 0,
        totalDriveTime := 0, totalOnSiteTime := 0, totalTime := 0,
        locationsPerHour := 0, averageTimePerStop := 0, totalDistance := 0,
        trends := [{ label := "Completion Rate", value := "0%",
                     type := TrendType.negative }],
        observations := [], flaggedIssues := [] } ∧
     generateAIInsights zeroRoute [] [] = [Observation.lowCompletion 0]) :=
  ⟨⟨rfl, rfl, Or.inl rfl⟩, claim_C1_amended zeroRoute rfl rfl (Or.inl rfl)⟩

/-- Claim C2: for every list of at least two coordinates — duplicates and
zero inter-point distances included, since no step of the proof assumes
distinct points — the fallback optimization terminates with an order that
is a permutation of the indices 0..n-1 whose first element is 0. -/
theorem claim_C2 (coords : List Coordinates) (h : 2 ≤ coords.length) :
    (basicOptimization coords).orderedStops.Perm (List.range coords.length) ∧
    (basicOptimization coords).orderedStops.head? = some 0 :=
  basicOptimizationGen_perm haversineDistance coords h

/-- Witness for C2 on three points, two of them identical. -/
theorem claim_C2_witness : 2 ≤ coordsEx.length ∧
    ((basicOptimization coordsEx).orderedStops.Perm
      (List.range coordsEx.length) ∧
     (basicOptimization coordsEx).orderedStops.head? = some 0) :=
  ⟨by decide, claim_C2 coordsEx (by decide)⟩

/-- Claim C3: the full-day scenario — five stops, four completed with
on-site times 10, 10, 10 and 50 minutes, one skipped, 3600 s estimated
duration, 40000 m distance, start and completion five hours apart — yields
totalOnSiteTime 80, totalDriveTime 0, totalTime 300, locationsPerHour 0.8,
averageTimePerStop 20, totalDistance 40.0 km, an outlier observation for
the 50-minute stop (50 min versus the 20 min average), and exactly one
flagged issue, of low severity, for the skipped stop. -/
theorem claim_C3 :
    (calculateSummary scenarioRoute scenarioStops []).totalOnSiteTime = 80 ∧
    (calculateSummary scenarioRoute scenarioStops []).totalDriveTime = 0 ∧
    (calculateSummary scenarioRoute scenarioStops []).totalTime = 300 ∧
    (calculateSummary scenarioRoute scenarioStops []).locationsPerHour = 0.8 ∧
    (calculateSummary scenarioRoute scenarioStops []).averageTimePerStop = 20 ∧
    (calculateSummary scenarioRoute scenarioStops []).totalDistance = 40 ∧
    Observation.longStops 50 20 ∈
      generateAIInsights scenarioRoute scenarioStops [] ∧
    (calculateSummary scenarioRoute scenarioStops []).flaggedIssues =
      [{ severity := Severity.low, description := "Stop skipped: Addr 5",
         stopId := "s5" }] := by
  norm_num +decide [calculateSummary, calculateTimeSpent, scenarioStops,
    scenarioRoute, jsRound, calculateFlaggedIssues, stopIssues, responsesFor,
    stableSortByKey, insertByKey, allResponsesOf, displayName,
    generateAIInsights, listMaxD, List.filter, List.sum]

/-- Claim C4: the flagged-issues list equals its specification reading —
per stop, per response, a medium issue for each true issue yes/no response
(with the description rule), a rating issue for each rating response with
coerced value at most 2 (high exactly for value 1), a low issue for each
skipped stop, all globally ordered high, then medium, then low, each
severity tier in encounter order (the ES2019-stable sort). -/
theorem claim_C4 (stops : List Stop) (rb : ResponsesByStop) :
    calculateFlaggedIssues stops rb = specFlaggedIssues stops rb := by
  show stableSortByKey (fun i => severityRank i.severity)
      (stops.flatMap fun stop => stopIssues stop (responsesFor rb stop.id)) =
    (stops.flatMap fun stop => stopIssues stop (responsesFor rb stop.id)).filter
        (fun i => i.severity = Severity.high) ++
      (stops.flatMap fun stop => stopIssues stop (responsesFor rb stop.id)).filter
        (fun i => i.severity = Severity.medium) ++
      (stops.flatMap fun stop => stopIssues stop (responsesFor rb stop.id)).filter
        (fun i => i.severity = Severity.low)
  generalize (stops.flatMap fun stop => stopIssues stop (responsesFor rb stop.id)) = l
  rw [stableSortByKey_three _ l (fun a _ => by cases a.severity <;> simp [severityRank])]
  have e0 : l.filter (fun i => severityRank i.severity = 0) =
      l.filter (fun i => i.severity = Severity.high) :=
    List.filter_congr fun a _ => by cases h : a.severity <;> simp [severityRank, h]
  have e1 : l.filter (fun i => severityRank i.severity = 1) =
      l.filter (fun i => i.severity = Severity.medium) :=
    List.filter_congr fun a _ => by cases h : a.severity <;> simp [severityRank, h]
  have e2 : l.filter (fun i => severityRank i.severity = 2) =
      l.filter (fun i => i.severity = Severity.low) :=
    List.filter_congr fun a _ => by cases h : a.severity <;> simp [severityRank, h]
  rw [e0, e1, e2]

/-- Claim C5: at every iteration of the fallback construction the index
appended to the order is an unvisited index at minimum haversine distance
from the current point, the lowest index among equidistant ones — the
returned order (after the fixed head 0) stands in the greedy relation to
the initial unvisited set 1..n-1 — and, the optimizer being a function of
its input, a fixed input list always yields the same order. -/
theorem claim_C5 (coords : List Coordinates) (h : 2 < coords.length) :
    GreedyFrom haversineDistance coords 0 ((List.range coords.length).tail)
      ((basicOptimization coords).orderedStops.tail) ∧
    basicOptimization coords = basicOptimization coords := by
  refine ⟨?_, rfl⟩
  have h2 : ¬ coords.length ≤ 2 := not_le.mpr h
  show GreedyFrom haversineDistance coords 0 _
    ((basicOptimizationGen haversineDistance coords).orderedStops.tail)
  simp only [basicOptimizationGen, if_neg h2, List.tail_cons]
  exact nnLoop_greedyFrom haversineDistance coords (coords.length - 1) 0
    ((List.range coords.length).tail)
    (range_tail_length coords.length).symm (range_tail_pairwise _)

/-- Witness for C5 on three points, two of them identical. -/
theorem claim_C5_witness : 2 < coordsEx.length ∧
    (GreedyFrom haversineDistance coordsEx 0 ((List.range coordsEx.length).tail)
      ((basicOptimization coordsEx).orderedStops.tail) ∧
     basicOptimization coordsEx = basicOptimization coordsEx) :=
  ⟨by decide, claim_C5 coordsEx (by decide)⟩

/-- Claim C6: for every list of at least two coordinates, the reported
total distance is the sum of the haversine distances between consecutive
points taken in the returned order, and the reported duration is that
distance divided by 25 mph expressed in meters per second
(25 * 1609.34 / 3600). -/
theorem claim_C6 (coords : List Coordinates) (h : 2 ≤ coords.length) :
    (basicOptimization coords).totalDistance =
      sumAlongOrder haversineDistance coords
        (basicOptimization coords).orderedStops ∧
    (basicOptimization coords).totalDuration =
      (basicOptimization coords).totalDistance / (25 * 1609.34 / 3600) :=
  basicOptimizationGen_total haversineDistance coords h

/-- Witness for C6 on three points, two of them identical. -/
theorem claim_C6_witness : 2 ≤ coordsEx.length ∧
    ((basicOptimization coordsEx).totalDistance =
      sumAlongOrder haversineDistance coordsEx
        (basicOptimization coordsEx).orderedStops ∧
     (basicOptimization coordsEx).totalDuration =
      (basicOptimization coordsEx).totalDistance / (25 * 1609.34 / 3600)) :=
  ⟨by decide, claim_C6 coordsEx (by decide)⟩

/-- Claim C7, as stated, is false on the code: with 50 of 101 stops
completed the exact completion rate is 5000/101 %, strictly below 50 %, so
the claim classifies it negative; the code rounds to 50 first and
classifies the trend neutral. -/
theorem claim_C7_counterexample :
    ((((boundaryStops.filter
        (fun s => s.status = StopStatus.completed)).length : ℚ) /
      (boundaryStops.length : ℚ)) * 100 < 50) ∧
    (calculateTrends boundaryStops []).head? =
      some { label := "Completion Rate", value := "50%",
             type := TrendType.neutral } := by
  norm_num +decide [boundaryStops, calculateTrends, completionTrendOf,
    completionRateOf, jsRound, List.filter_append, List.filter_replicate,
    allResponsesOf, ratingTrendsOf, List.filter]

/-- Claim C7, amended: for every nonempty stop list the completion-rate
trend is the head of the trends list; its value is the completion
percentage rounded to the nearest integer (Math.round of completed/total *
100), and the classification applies to that rounded value: positive iff
at least 80, neutral iff between 50 and 79, negative iff below 50.  The
claim's examples stand: exactly 80 % is positive, 7 of 9 rounds to 78 and
is neutral, 49 % is negative. -/
theorem claim_C7_amended (stops : List Stop) (rb : ResponsesByStop)
    (h : stops ≠ []) :
    ∃ t, (calculateTrends stops rb).head? = some t ∧
      t.label = "Completion Rate" ∧
      t.value = toString (completionRateOf stops) ++ "%" ∧
      completionRateOf stops =
        jsRound ((((stops.filter
            (fun s => s.status = StopStatus.completed)).length : ℚ) /
          (stops.length : ℚ)) * 100) ∧
      (t.type = TrendType.positive ↔ 80 ≤ completionRateOf stops) ∧
      (t.type = TrendType.neutral ↔
        50 ≤ completionRateOf stops ∧ completionRateOf stops < 80) ∧
      (t.type = TrendType.negative ↔ completionRateOf stops < 50) := by
  have htype : (completionTrendOf stops).type =
      (if completionRateOf stops ≥ 80 then TrendType.positive
       else if completionRateOf stops ≥ 50 then TrendType.neutral
       else TrendType.negative) := rfl
  refine ⟨completionTrendOf stops, rfl, rfl, rfl, ?_, ?_, ?_, ?_⟩
  · unfold completionRateOf
    rw [if_pos (List.length_pos.mpr h)]
  · rw [htype]; split_ifs with h80 h50 <;> simp <;> omega
  · rw [htype]; split_ifs with h80 h50 <;> simp <;> omega
  · rw [htype]; split_ifs with h80 h50 <;> simp <;> omega

/-- Witness for C7 on the five-stop scenario (80 %, positive). -/
theorem claim_C7_witness : scenarioStops ≠ [] ∧
    (∃ t, (calculateTrends scenarioStops []).head? = some t ∧
      t.label = "Completion Rate" ∧
      t.value = toString (completionRateOf scenarioStops) ++ "%" ∧
      completionRateOf scenarioStops =
        jsRound ((((scenarioStops.filter
            (fun s => s.status = StopStatus.completed)).length : ℚ) /
          (scenarioStops.length : ℚ)) * 100) ∧
      (t.type = TrendType.positive ↔ 80 ≤ completionRateOf scenarioStops) ∧
      (t.type = TrendType.neutral ↔
        50 ≤ completionRateOf scenarioStops ∧
          completionRateOf scenarioStops < 80) ∧
      (t.type = TrendType.negative ↔ completionRateOf scenarioStops < 50)) :=
  ⟨by decide, claim_C7_amended scenarioStops [] (by decide)⟩

/-- Claim C8, as stated, is false on the code at the 10 % boundary and
under rounding: with 5 of 48 issue responses true the exact rate is
125/12 % — strictly between 10 % and 30 %, neutral per the claim — but the
code rounds to 10 and, using a strict greater-than-10 test, classifies the
trend positive. -/
theorem claim_C8_counterexample :
    calculateTrends [] boundaryIssuesRb =
      [{ label := "Completion Rate", value := "0%", type := TrendType.negative },
       { label := "Issues Reported", value := "10%",
         type := TrendType.positive }] ∧
    10 < (((issueResponsesOf boundaryIssuesRb).filter
        (fun r => r.value = JsValue.bool true)).length : ℚ) /
      ((issueResponsesOf boundaryIssuesRb).length : ℚ) * 100 ∧
    (((issueResponsesOf boundaryIssuesRb).filter
        (fun r => r.value = JsValue.bool true)).length : ℚ) /
      ((issueResponsesOf boundaryIssuesRb).length : ℚ) * 100 ≤ 30 := by
  have hinc : includesLower "Any issues found?" "issue" = true := by decide
  norm_num +decide [calculateTrends, completionTrendOf, completionRateOf,
    issueResponsesOf, issueTrendsOf, followUpTrendsOf, ratingTrendsOf,
    allResponsesOf, boundaryIssuesRb, issueResp, jsRound, hinc,
    List.filter_append, List.filter_replicate, List.filter_cons]

/-- Claim C8, amended: the issues-reported trend is emitted iff some yes/no
response's question text contains "issue" (case-insensitive); its value is
the fraction of those responses answered true as a percentage rounded to
the nearest integer, and the classification applies to the rounded value
with the code's strict thresholds: negative iff above 30, neutral iff
above 10 and at most 30, positive iff at most 10 (so exactly 10 % is
positive, not neutral). -/
theorem claim_C8_amended (stops : List Stop) (rb : ResponsesByStop) :
    ((∃ t ∈ calculateTrends stops rb, t.label = "Issues Reported") ↔
      ∃ r ∈ allResponsesOf rb, r.type = QuestionType.yesNo ∧
        includesLower r.questionText "issue" = true) ∧
    (∀ t ∈ calculateTrends stops rb, t.label = "Issues Reported" →
      t.value = toString (issueRateOf rb) ++ "%" ∧
      (t.type = TrendType.negative ↔ 30 < issueRateOf rb) ∧
      (t.type = TrendType.neutral ↔
        10 < issueRateOf rb ∧ issueRateOf rb ≤ 30) ∧
      (t.type = TrendType.positive ↔ issueRateOf rb ≤ 10)) := by
  have hB : (∃ r ∈ allResponsesOf rb, r.type = QuestionType.yesNo ∧
      includesLower r.questionText "issue" = true) ↔
      (issueResponsesOf rb).length > 0 := by
    constructor
    · rintro ⟨r, hr, h1, h2⟩
      refine List.length_pos.mpr (List.ne_nil_of_mem (a := r) ?_)
      simp [issueResponsesOf, List.mem_filter, hr, h1, h2]
    · intro hlen
      obtain ⟨r, hr⟩ := List.exists_mem_of_length_pos hlen
      simp only [issueResponsesOf, List.mem_filter, decide_eq_true_eq] at hr
      exact ⟨r, hr.1.1, hr.1.2, hr.2⟩
  have htrends : calculateTrends stops rb =
      completionTrendOf stops ::
        ((if ((allResponsesOf rb).filter
              (fun r => r.type = QuestionType.yesNo)).length > 0 then
            issueTrendsOf ((allResponsesOf rb).filter
              (fun r => r.type = QuestionType.yesNo)) ++
            followUpTrendsOf ((allResponsesOf rb).filter
              (fun r => r.type = QuestionType.yesNo))
          else []) ++
         ratingTrendsOf (allResponsesOf rb)) := rfl
  have hynpos_of : (issueResponsesOf rb).length > 0 →
      ((allResponsesOf rb).filter
        (fun r => r.type = QuestionType.yesNo)).length > 0 := by
    intro hlen
    obtain ⟨r, hr⟩ := List.exists_mem_of_length_pos hlen
    have hr' : r ∈ (allResponsesOf rb).filter
        (fun r => r.type = QuestionType.yesNo) := (List.mem_filter.mp hr).1
    exact List.length_pos.mpr (List.ne_nil_of_mem hr')
  constructor
  · constructor
    · rintro ⟨t, ht, hlabel⟩
      rw [htrends] at ht
      rcases List.mem_cons.mp ht with rfl | ht'
      · exact absurd hlabel (by simp [completionTrendOf])
      rcases List.mem_append.mp ht' with ht'' | ht''
      · by_cases hyn : ((allResponsesOf rb).filter
            (fun r => r.type = QuestionType.yesNo)).length > 0
        · rw [if_pos hyn] at ht''
          rcases List.mem_append.mp ht'' with hti | htf
          · rw [issueTrendsOf_eq] at hti
            refine hB.mpr ?_
            split at hti
            · assumption
            · exact absurd hti (List.not_mem_nil t)
          · have := label_of_mem_followUpTrendsOf htf
            rw [hlabel] at this
            exact absurd this (by decide)
        · rw [if_neg hyn] at ht''
          exact absurd ht'' (List.not_mem_nil t)
      · have := label_of_mem_ratingTrendsOf ht''
        rw [hlabel] at this
        exact absurd this (by decide)
    · intro hx
      have hlen : (issueResponsesOf rb).length > 0 := hB.mp hx
      refine ⟨{ label := "Issues Reported",
                value := toString (issueRateOf rb) ++ "%",
                type := if issueRateOf rb > 30 then TrendType.negative
                        else if issueRateOf rb > 10 then TrendType.neutral
                        else TrendType.positive }, ?_, rfl⟩
      rw [htrends]
      refine List.mem_cons_of_mem _ (List.mem_append.mpr (Or.inl ?_))
      rw [if_pos (hynpos_of hlen)]
      refine List.mem_append.mpr (Or.inl ?_)
      rw [issueTrendsOf_eq, if_pos hlen]
      exact List.mem_singleton_self _
  · intro t ht hlabel
    rw [htrends] at ht
    rcases List.mem_cons.mp ht with rfl | ht'
    · exact absurd hlabel (by simp [completionTrendOf])
    rcases List.mem_append.mp ht' with ht'' | ht''
    · by_cases hyn : ((allResponsesOf rb).filter
          (fun r => r.type = QuestionType.yesNo)).length > 0
      · rw [if_pos hyn] at ht''
        rcases List.mem_append.mp ht'' with hti | htf
        · rw [issueTrendsOf_eq] at hti
          split at hti
          · rw [List.mem_singleton.mp hti]
            refine ⟨rfl, ?_, ?_, ?_⟩ <;>
              (split_ifs with h30 h10 <;> simp <;> omega)
          · exact absurd hti (List.not_mem_nil t)
        · have := label_of_mem_followUpTrendsOf htf
          rw [hlabel] at this
          exact absurd this (by decide)
      · rw [if_neg hyn] at ht''
        exact absurd ht'' (List.not_mem_nil t)
    · have := label_of_mem_ratingTrendsOf ht''
      rw [hlabel] at this
      exact absurd this (by decide)

/-- Witness for C8: the emission direction at a concrete table with one
true issue response. -/
theorem claim_C8_witness :
    (∃ r ∈ allResponsesOf boundaryIssuesRb, r.type = QuestionType.yesNo ∧
      includesLower r.questionText "issue" = true) ∧
    (∃ t ∈ calculateTrends [] boundaryIssuesRb,
      t.label = "Issues Reported") :=
  ⟨⟨issueResp true, by decide, rfl, by decide⟩,
   (claim_C8_amended [] boundaryIssuesRb).1.mpr
     ⟨issueResp true, by decide, rfl, by decide⟩⟩

/-- Claim C9: generating a report for a route id with no underlying Route
record fails with the "Route not found" error before anything is computed
or stored — the error value carries no report and no store update. -/
theorem claim_C9 (db : Db) (routeId newId : String) (now : ℚ)
    (h : ∀ r ∈ db.routes, r.id ≠ routeId) :
    generateReport db routeId newId now = Except.error "Route not found" := by
  have hfind : db.routes.find? (fun r => r.id = routeId) = none :=
    List.find?_eq_none.mpr fun r hr => by simpa using h r hr
  unfold generateReport
  rw [hfind]

/-- Witness for C9 on the empty store. -/
theorem claim_C9_witness :
    (∀ r ∈ (Db.mk [] [] [] []).routes, r.id ≠ "r1") ∧
    generateReport (Db.mk [] [] [] []) "r1" "id1" 0 =
      Except.error "Route not found" :=
  ⟨by simp, claim_C9 (Db.mk [] [] [] []) "r1" "id1" 0 (by simp)⟩

/-- Claim C10: a rating response whose value is null (an unanswered
question) still produces a flagged issue, of medium severity, because
`Number(null)` coerces to 0, which passes the at-most-2 test and fails the
equals-1 test; the description interpolates the value as "null". -/
theorem claim_C10 (stops : List Stop) (rb : ResponsesByStop) (stop : Stop)
    (r : QuestionResponse) (hstop : stop ∈ stops)
    (hr : r ∈ responsesFor rb stop.id) (ht : r.type = QuestionType.rating)
    (hv : r.value = JsValue.null) :
    nullRatingIssue stop ∈ calculateFlaggedIssues stops rb := by
  have hmem : nullRatingIssue stop ∈
      stops.flatMap (fun stop => stopIssues stop (responsesFor rb stop.id)) := by
    refine List.mem_flatMap.mpr ⟨stop, hstop, ?_⟩
    unfold stopIssues
    refine List.mem_append_left _ ?_
    refine List.mem_flatMap.mpr ⟨r, hr, ?_⟩
    rw [ht, hv]
    have hdesc : "Low satisfaction rating (" ++ jsValueToString JsValue.null ++
        "/5) at " ++ displayName stop =
        "Low satisfaction rating (null/5) at " ++ displayName stop := rfl
    simp only [jsNumLE, jsNumEq, jsToNumber, hdesc]
    norm_num [nullRatingIssue]
  show _ ∈ stableSortByKey (fun i => severityRank i.severity)
    (stops.flatMap fun stop => stopIssues stop (responsesFor rb stop.id))
  exact (mem_stableSortByKey _ _ _).mpr hmem

/-- Witness for C10 on a concrete stop with one null-valued rating. -/
theorem claim_C10_witness :
    (nullRatingStop ∈ [nullRatingStop] ∧
     nullRatingResp ∈ responsesFor nullRatingRb nullRatingStop.id ∧
     nullRatingResp.type = QuestionType.rating ∧
     nullRatingResp.value = JsValue.null) ∧
    nullRatingIssue nullRatingStop ∈
      calculateFlaggedIssues [nullRatingStop] nullRatingRb :=
  ⟨⟨by decide, by decide, rfl, rfl⟩,
   claim_C10 [nullRatingStop] nullRatingRb nullRatingStop nullRatingResp
     (by decide) (by decide) rfl rfl⟩
